import Mathlib

/-!
Shallow embedding of `src/saturated_vapor_pressure.py`.

The Python module computes saturation vapor pressure over liquid water or
ice from a Celsius temperature, dispatching on string-valued `phase` and
`formula` arguments.  Python floats are idealised as real numbers; the
transcendental functions `math.exp`, `math.log`, `math.log10`, `math.tanh`
and the float power `**` become `Real.exp`, `Real.log`, `Real.logb 10`,
`Real.tanh` and `Real.rpow`.  A `ValueError` becomes the `err` constructor
carrying the message, and `np.nan` becomes the `nan` constructor.

`vapor_pressure_elementwise` in the source is self-recursive (the
`MartiMauersberger` and `Fukuta` liquid branches re-invoke it with formula
`GoffGratch`).  The embedding `vaporPressureElementwiseFuel` makes the
call stack explicit with a fuel parameter; exhausted fuel returns the
`diverge` marker.  Fuel 2 is proved sufficient for every input, and the
main evaluator `vapor_pressure_elementwise` is the fuel-2 instance.
-/

set_option maxHeartbeats 1000000

/-- Result of one scalar evaluation: a numeric pressure in hPa, the
not-a-number sentinel (`np.nan` in the source), a raised `ValueError`
carrying its message, or fuel exhaustion of the embedding. -/
inductive VPResult where
  | ok (x : ℝ)
  | nan
  | err (msg : String)
  | diverge

/-- Triple point of water in K, source line 51. -/
noncomputable def temperature_triple_point : ℝ := 273.16

/-- Hyland and Wexler saturation pressure over liquid water, source lines 73-85. -/
noncomputable def hylandWexlerLiquid (temperature_c : ℝ) : ℝ :=
  let temperature_k := temperature_c + 273.15
  Real.exp (
    -0.58002206e4 / temperature_k
    + 0.13914993e1
    - 0.48640239e-1 * temperature_k
    + 0.41764768e-4 * temperature_k ^ (2.0 : ℝ)
    - 0.14452093e-7 * temperature_k ^ (3.0 : ℝ)
    + 0.65459673e1 * Real.log temperature_k)
  / 100.0

/-- Hardy saturation pressure over liquid water, source lines 87-102. -/
noncomputable def hardyLiquid (temperature_c : ℝ) : ℝ :=
  let temperature_k := temperature_c + 273.15
  Real.exp (
    -2.8365744e3 / temperature_k ^ (2 : ℕ)
    - 6.028076559e3 / temperature_k
    + 1.954263612e1
    - 2.737830188e-2 * temperature_k
    + 1.6261698e-5 * temperature_k ^ (2 : ℕ)
    + 7.0229056e-10 * temperature_k ^ (3 : ℕ)
    - 1.8680009e-13 * temperature_k ^ (4 : ℕ)
    + 2.7150305 * Real.log temperature_k)
  / 100.0

/-- Preining saturation pressure over liquid water, source lines 104-114. -/
noncomputable def preiningLiquid (temperature_c : ℝ) : ℝ :=
  let temperature_k := temperature_c + 273.15
  Real.exp (
    -7235.424651 / temperature_k
    + 77.34491296
    + 5.7113e-3 * temperature_k
    - 8.2 * Real.log temperature_k)
  / 100.0

/-- Wexler saturation pressure over liquid water, source lines 116-131. -/
noncomputable def wexlerLiquid (temperature_c : ℝ) : ℝ :=
  let temperature_k := temperature_c + 273.15
  Real.exp (
    -0.29912729e4 * temperature_k ^ (-2.0 : ℝ)
    - 0.60170128e4 * temperature_k ^ (-1.0 : ℝ)
    + 0.1887643854e2 * temperature_k ^ (0.0 : ℝ)
    - 0.28354721e-1 * temperature_k ^ (1.0 : ℝ)
    + 0.17838301e-4 * temperature_k ^ (2.0 : ℝ)
    - 0.84150417e-9 * temperature_k ^ (3.0 : ℝ)
    + 0.44412543e-12 * temperature_k ^ (4.0 : ℝ)
    + 2.858487 * Real.log temperature_k)
  / 100.0

/-- Goff Gratch saturation pressure over liquid water, source lines 133-155. -/
noncomputable def goffGratchLiquid (temperature_c : ℝ) : ℝ :=
  let temperature_k := temperature_c + 273.15
  let temperature_steam_point : ℝ := 373.16
  let e_water_saturation : ℝ := 1013.246
  (10.0 : ℝ) ^ (
    -7.90298 * (temperature_steam_point / temperature_k - 1.0)
    + 5.02808 * Real.logb 10 (temperature_steam_point / temperature_k)
    - 1.3816e-7
      * ((10.0 : ℝ) ^ (11.344 * (1.0 - temperature_k / temperature_steam_point)) - 1.0)
    + 8.1328e-3
      * ((10.0 : ℝ) ^ (-3.49149 * (temperature_steam_point / temperature_k - 1)) - 1.0)
    + Real.logb 10 e_water_saturation)

/-- CIMO saturation pressure over liquid water, source lines 157-159. -/
noncomputable def cimoLiquid (temperature_c : ℝ) : ℝ :=
  6.112 * Real.exp (17.62 * temperature_c / (243.12 + temperature_c))

/-- Magnus Tetens saturation pressure over liquid water, source lines 161-168. -/
noncomputable def magnusTetensLiquid (temperature_c : ℝ) : ℝ :=
  let temperature_k := temperature_c + 273.15
  6.1078 * Real.exp (
    17.269388 * (temperature_k - temperature_triple_point) / (temperature_k - 35.86))

/-- Buck saturation pressure over liquid water, source lines 170-173. -/
noncomputable def buckLiquid (temperature_c : ℝ) : ℝ :=
  6.1121 * Real.exp (17.502 * temperature_c / (240.97 + temperature_c))

/-- Buck 2001 saturation pressure over liquid water, source lines 175-182. -/
noncomputable def buck2Liquid (temperature_c : ℝ) : ℝ :=
  6.1121 * Real.exp ((18.678 - temperature_c / 234.5) * temperature_c / (257.14 + temperature_c))

/-- WMO (Goff 1957) saturation pressure over liquid water, source lines 184-205. -/
noncomputable def wmoLiquid (temperature_c : ℝ) : ℝ :=
  let temperature_k := temperature_c + 273.15
  (10.0 : ℝ) ^ (
    10.79574 * (1.0 - temperature_triple_point / temperature_k)
    - 5.02800 * Real.logb 10 (temperature_k / temperature_triple_point)
    + 1.50475e-4
      * (1.0 - (10.0 : ℝ) ^ (-8.2969 * (temperature_k / temperature_triple_point - 1.0)))
    + 0.42873e-3
      * ((10.0 : ℝ) ^ (4.76955 * (1.0 - temperature_triple_point / temperature_k)) - 1.0)
    + 0.78614)

/-- WMO 2000 saturation pressure over liquid water, source lines 207-227
(identical to `wmoLiquid` except for the sign of 4.76955). -/
noncomputable def wmo2000Liquid (temperature_c : ℝ) : ℝ :=
  let temperature_k := temperature_c + 273.15
  (10.0 : ℝ) ^ (
    10.79574 * (1.0 - temperature_triple_point / temperature_k)
    - 5.02800 * Real.logb 10 (temperature_k / temperature_triple_point)
    + 1.50475e-4
      * (1.0 - (10.0 : ℝ) ^ (-8.2969 * (temperature_k / temperature_triple_point - 1.0)))
    + 0.42873e-3
      * ((10.0 : ℝ) ^ (-4.76955 * (1.0 - temperature_triple_point / temperature_k)) - 1.0)
    + 0.78614)

/-- Sonntag saturation pressure over liquid water, source lines 229-237. -/
noncomputable def sonntagLiquid (temperature_c : ℝ) : ℝ :=
  let temperature_k := temperature_c + 273.15
  Real.exp (
    -6096.9385 * temperature_k ^ (-1.0 : ℝ)
    + 16.635794
    - 2.711193e-2 * temperature_k ^ (1.0 : ℝ)
    + 1.673952e-5 * temperature_k ^ (2.0 : ℝ)
    + 2.433502 * Real.log temperature_k)

/-- Bolton saturation pressure over liquid water, source lines 239-241. -/
noncomputable def boltonLiquid (temperature_c : ℝ) : ℝ :=
  6.112 * Real.exp (17.67 * temperature_c / (temperature_c + 243.5))

/-- Fukuta correction polynomial over the Goff Gratch value, source lines 255-263. -/
noncomputable def fukutaCorrection (temperature_c : ℝ) : ℝ :=
  let x := temperature_c + 19
  0.9992
  + 7.113e-4 * x
  - 1.847e-4 * x ^ (2.0 : ℝ)
  + 1.189e-5 * x ^ (3.0 : ℝ)
  + 1.130e-7 * x ^ (4.0 : ℝ)
  - 1.743e-8 * x ^ (5.0 : ℝ)

/-- IAPWS 1995 saturation pressure over liquid water, source lines 265-292. -/
noncomputable def iapwsLiquid (temperature_c : ℝ) : ℝ :=
  let temperature_k := temperature_c + 273.15
  let temperature_critical_point : ℝ := 647.096
  let pressure_critical_point : ℝ := 22.064 * 1e4
  let nu := 1 - temperature_k / temperature_critical_point
  let a1 : ℝ := -7.85951783
  let a2 : ℝ := 1.84408259
  let a3 : ℝ := -11.7866497
  let a4 : ℝ := 22.6807411
  let a5 : ℝ := -15.9618719
  let a6 : ℝ := 1.80122502
  pressure_critical_point * Real.exp (
    temperature_critical_point / temperature_k
    * (a1 * nu
      + a2 * nu ^ (1.5 : ℝ)
      + a3 * nu ^ (3.0 : ℝ)
      + a4 * nu ^ (3.5 : ℝ)
      + a5 * nu ^ (4.0 : ℝ)
      + a6 * nu ^ (7.5 : ℝ)))

/-- Murphy and Koop saturation pressure over liquid water, source lines 294-311. -/
noncomputable def murphyKoopLiquid (temperature_c : ℝ) : ℝ :=
  let temperature_k := temperature_c + 273.15
  Real.exp (
    54.842763
    - 6763.22 / temperature_k
    - 4.210 * Real.log temperature_k
    + 0.000367 * temperature_k
    + Real.tanh (0.0415 * (temperature_k - 218.8))
      * (53.878
        - 1331.22 / temperature_k
        - 9.44523 * Real.log temperature_k
        + 0.014025 * temperature_k))
  / 100.0

/-- McIDAS saturation pressure over liquid water, source lines 313-351. -/
noncomputable def mcIdasLiquid (temperature_c : ℝ) : ℝ :=
  let A0 : ℝ := 0.999996876e0
  let A1 : ℝ := -0.9082695004e-2
  let A2 : ℝ := 0.7873616869e-4
  let A3 : ℝ := -0.6111795727e-6
  let A4 : ℝ := 0.4388418740e-8
  let A5 : ℝ := -0.2988388486e-10
  let A6 : ℝ := 0.2187442495e-12
  let A7 : ℝ := -0.1789232111e-14
  let A8 : ℝ := 0.1111201803e-16
  let A9 : ℝ := -0.3099457145e-19
  let B : ℝ := 0.61078e1
  let S := A0 + temperature_c * (A1 + temperature_c * (A2 + temperature_c * (A3
    + temperature_c * (A4 + temperature_c * (A5 + temperature_c * (A6
    + temperature_c * (A7 + temperature_c * (A8 + temperature_c * A9))))))))
  B / S ^ (8 : ℕ)

/-- Marti and Mauersberger saturation pressure over ice, source lines 392-394. -/
noncomputable def martiMauersbergerIce (temperature_c : ℝ) : ℝ :=
  let temperature_k := temperature_c + 273.15
  (10.0 : ℝ) ^ (-2663.5 / temperature_k + 12.537) / 100.0

/-- Hyland and Wexler saturation pressure over ice, source lines 396-409. -/
noncomputable def hylandWexlerIce (temperature_c : ℝ) : ℝ :=
  let temperature_k := temperature_c + 273.15
  Real.exp (
    -0.56745359e4 / temperature_k
    + 0.63925247e1
    - 0.96778430e-2 * temperature_k
    + 0.62215701e-6 * temperature_k ^ (2.0 : ℝ)
    + 0.20747825e-8 * temperature_k ^ (3.0 : ℝ)
    - 0.94840240e-12 * temperature_k ^ (4.0 : ℝ)
    + 0.41635019e1 * Real.log temperature_k)
  / 100.0

/-- Wexler saturation pressure over ice, source lines 411-423. -/
noncomputable def wexlerIce (temperature_c : ℝ) : ℝ :=
  let temperature_k := temperature_c + 273.15
  Real.exp (
    -0.58653696e4 * temperature_k ^ (-1.0 : ℝ)
    + 0.2224103300e2
    + 0.13749042e-1 * temperature_k ^ (1.0 : ℝ)
    - 0.34031775e-4 * temperature_k ^ (2.0 : ℝ)
    + 0.26967687e-7 * temperature_k ^ (3.0 : ℝ)
    + 0.6918651 * Real.log temperature_k)
  / 100.0

/-- Hardy saturation pressure over ice, source lines 425-439. -/
noncomputable def hardyIce (temperature_c : ℝ) : ℝ :=
  let temperature_k := temperature_c + 273.15
  Real.exp (
    -0.58666426e4 * temperature_k ^ (-1.0 : ℝ)
    + 0.2232870244e2
    + 0.139387003e-1 * temperature_k ^ (1.0 : ℝ)
    - 0.34262402e-4 * temperature_k ^ (2.0 : ℝ)
    + 0.27040955e-7 * temperature_k ^ (3.0 : ℝ)
    + 0.67063522e-1 * Real.log temperature_k)
  / 100.0

/-- Goff Gratch saturation pressure over ice, source lines 441-450. -/
noncomputable def goffGratchIce (temperature_c : ℝ) : ℝ :=
  let temperature_k := temperature_c + 273.15
  let e_ice_0 : ℝ := 6.1071
  (10.0 : ℝ) ^ (
    -9.09718 * (temperature_triple_point / temperature_k - 1.0)
    - 3.56654 * Real.logb 10 (temperature_triple_point / temperature_k)
    + 0.876793 * (1.0 - temperature_k / temperature_triple_point)
    + Real.logb 10 e_ice_0)

/-- Magnus Tetens saturation pressure over ice, source lines 452-459. -/
noncomputable def magnusTetensIce (temperature_c : ℝ) : ℝ :=
  let temperature_k := temperature_c + 273.15
  6.1078 * Real.exp (
    21.8745584 * (temperature_k - temperature_triple_point) / (temperature_k - 7.66))

/-- Buck saturation pressure over ice, source lines 461-466. -/
noncomputable def buckIce (temperature_c : ℝ) : ℝ :=
  6.1115 * Real.exp (22.452 * temperature_c / (272.55 + temperature_c))

/-- Buck 2001 saturation pressure over ice, source lines 468-475. -/
noncomputable def buck2Ice (temperature_c : ℝ) : ℝ :=
  6.1115 * Real.exp ((23.036 - temperature_c / 333.7) * temperature_c / (279.82 + temperature_c))

/-- CIMO saturation pressure over ice, source lines 477-481. -/
noncomputable def cimoIce (temperature_c : ℝ) : ℝ :=
  6.112 * Real.exp (22.46 * temperature_c / (272.62 + temperature_c))

/-- WMO saturation pressure over ice, source lines 483-492. -/
noncomputable def wmoIce (temperature_c : ℝ) : ℝ :=
  let temperature_k := temperature_c + 273.15
  (10.0 : ℝ) ^ (
    -9.09685 * (temperature_triple_point / temperature_k - 1.0)
    - 3.56654 * Real.logb 10 (temperature_triple_point / temperature_k)
    + 0.87682 * (1.0 - temperature_k / temperature_triple_point)
    + 0.78614)

/-- Sonntag saturation pressure over ice, source lines 494-502. -/
noncomputable def sonntagIce (temperature_c : ℝ) : ℝ :=
  let temperature_k := temperature_c + 273.15
  Real.exp (
    -6024.5282 * temperature_k ^ (-1.0 : ℝ)
    + 24.721994
    + 1.0613868e-2 * temperature_k ^ (1.0 : ℝ)
    - 1.3198825e-5 * temperature_k ^ (2.0 : ℝ)
    - 0.49382577 * Real.log temperature_k)

/-- Murphy and Koop saturation pressure over ice, source lines 504-514. -/
noncomputable def murphyKoopIce (temperature_c : ℝ) : ℝ :=
  let temperature_k := temperature_c + 273.15
  Real.exp (
    9.550426
    - 5723.265 / temperature_k
    + 3.53068 * Real.log temperature_k
    - 0.00728332 * temperature_k)
  / 100.0

/-- McIDAS saturation pressure over ice, source lines 516-533. -/
noncomputable def mcIdasIce (temperature_c : ℝ) : ℝ :=
  let A0 : ℝ := 0.7859063157e0
  let A1 : ℝ := 0.3579242320e-1
  let A2 : ℝ := -0.1292820828e-3
  let A3 : ℝ := 0.5937519208e-6
  let A4 : ℝ := 0.4482949133e-9
  let A5 : ℝ := 0.2176664827e-10
  let E := A0 + temperature_c * (A1 + temperature_c * (A2 + temperature_c * (A3
    + temperature_c * (A4 + temperature_c * A5))))
  (10.0 : ℝ) ^ E

/-- Ice-branch formula aliasing, source lines 383-390: `WMO2000` is remapped
to `WMO`, then `IAPWS` to `GoffGratch`. -/
def iceResolve (formula : String) : String :=
  let formula := if formula = "WMO2000" then "WMO" else formula
  let formula := if formula = "IAPWS" then "GoffGratch" else formula
  formula

/-- The recursive scalar evaluator of source lines 32-541, with the call
stack made explicit by a fuel parameter: each call consumes one unit, the
self-recursive call sites (`MartiMauersberger` and `Fukuta` over liquid)
pass the remaining fuel, and exhausted fuel yields `diverge`. -/
noncomputable def vaporPressureElementwiseFuel :
    Nat → ℝ → String → Option String → VPResult
  | 0, _, _, _ => .diverge
  | fuel + 1, temperature_c, phase, formula =>
    if phase = "liquid" then
      -- Default uses Hyland and Wexler over liquid (source lines 61-62).
      let formula := formula.getD "HylandWexler"
      if formula = "MartiMauersberger" then
        -- Delegates to the Goff Gratch formulation (source lines 64-71).
        vaporPressureElementwiseFuel fuel temperature_c "liquid" (some "GoffGratch")
      else if formula = "HylandWexler" then .ok (hylandWexlerLiquid temperature_c)
      else if formula = "Hardy" then .ok (hardyLiquid temperature_c)
      else if formula = "Preining" then .ok (preiningLiquid temperature_c)
      else if formula = "Wexler" then .ok (wexlerLiquid temperature_c)
      else if formula = "GoffGratch" then .ok (goffGratchLiquid temperature_c)
      else if formula = "CIMO" then .ok (cimoLiquid temperature_c)
      else if formula = "MagnusTetens" then .ok (magnusTetensLiquid temperature_c)
      else if formula = "Buck" then .ok (buckLiquid temperature_c)
      else if formula = "Buck2" then .ok (buck2Liquid temperature_c)
      else if formula = "WMO" then .ok (wmoLiquid temperature_c)
      else if formula = "WMO2000" then .ok (wmo2000Liquid temperature_c)
      else if formula = "Sonntag" then .ok (sonntagLiquid temperature_c)
      else if formula = "Bolton" then .ok (boltonLiquid temperature_c)
      else if formula = "Fukuta" then
        -- Source lines 243-263: table value from Goff Gratch, then correction.
        if temperature_c < -39.0 then .nan
        else
          match vaporPressureElementwiseFuel fuel temperature_c "liquid" (some "GoffGratch") with
          | .ok pressure_saturation_goff_gratch =>
            .ok (pressure_saturation_goff_gratch * fukutaCorrection temperature_c)
          | r => r
      else if formula = "IAPWS" then .ok (iapwsLiquid temperature_c)
      else if formula = "MurphyKoop" then .ok (murphyKoopLiquid temperature_c)
      else if formula = "McIDAS" then .ok (mcIdasLiquid temperature_c)
      else .err ("Unknown formula for saturation pressure over liquid water surface: " ++ formula)
    else if phase = "ice" then
      if temperature_c ≤ 0 then
        -- Source lines 361-375: the guard `temperature_c <= 0` returns the
        -- Hyland Wexler liquid-water expression, ignoring `formula`.
        .ok (hylandWexlerLiquid temperature_c)
      else
        -- Default uses Goff Gratch over ice (source lines 380-381), then aliasing.
        let formula := iceResolve (formula.getD "GoffGratch")
        if formula = "MartiMauersberger" then .ok (martiMauersbergerIce temperature_c)
        else if formula = "HylandWexler" then .ok (hylandWexlerIce temperature_c)
        else if formula = "Wexler" then .ok (wexlerIce temperature_c)
        else if formula = "Hardy" then .ok (hardyIce temperature_c)
        else if formula = "GoffGratch" then .ok (goffGratchIce temperature_c)
        else if formula = "MagnusTetens" then .ok (magnusTetensIce temperature_c)
        else if formula = "Buck" then .ok (buckIce temperature_c)
        else if formula = "Buck2" then .ok (buck2Ice temperature_c)
        else if formula = "CIMO" then .ok (cimoIce temperature_c)
        else if formula = "WMO" then .ok (wmoIce temperature_c)
        else if formula = "Sonntag" then .ok (sonntagIce temperature_c)
        else if formula = "MurphyKoop" then .ok (murphyKoopIce temperature_c)
        else if formula = "McIDAS" then .ok (mcIdasIce temperature_c)
        else .err ("Unknown formula for saturation pressure over ice surface: " ++ formula)
    else .err "Phase of water must be either `liquid` or `ice`."

/-- The scalar evaluator `vapor_pressure_elementwise` of source lines 32-541.
Fuel 2 is sufficient for every input (see the fuel-adequacy theorem below):
recursion depth never exceeds one. -/
noncomputable def vapor_pressure_elementwise
    (temperature_c : ℝ) (phase : String) (formula : Option String) : VPResult :=
  vaporPressureElementwiseFuel 2 temperature_c phase formula

/-- The vectorized wrapper `vapor_pressure` of source lines 543-582, with a
`List` standing for the numpy array: the whole-call substitutions
(`MartiMauersberger` over liquid, `IAPWS` over ice) are applied once, then
the scalar evaluator is mapped elementwise; an unknown phase raises. -/
noncomputable def vapor_pressure
    (temperature_c : List ℝ) (phase : String) (formula : Option String) :
    Except String (List VPResult) :=
  if phase = "liquid" then
    let formula := if formula = some "MartiMauersberger" then some "GoffGratch" else formula
    .ok (temperature_c.map (fun t => vapor_pressure_elementwise t "liquid" formula))
  else if phase = "ice" then
    let formula := if formula = some "IAPWS" then some "GoffGratch" else formula
    .ok (temperature_c.map (fun t => vapor_pressure_elementwise t "ice" formula))
  else .error "Phase of water must be either `liquid` or `ice`."

/-- Formula names accepted by the liquid branch, in source dispatch order
(source lines 64-351). -/
def liquidFormulas : List String :=
  ["MartiMauersberger", "HylandWexler", "Hardy", "Preining", "Wexler", "GoffGratch",
   "CIMO", "MagnusTetens", "Buck", "Buck2", "WMO", "WMO2000", "Sonntag", "Bolton",
   "Fukuta", "IAPWS", "MurphyKoop", "McIDAS"]

/-- Formula names accepted by the ice dispatch after aliasing, in source
dispatch order (source lines 392-533). -/
def iceFormulas : List String :=
  ["MartiMauersberger", "HylandWexler", "Wexler", "Hardy", "GoffGratch",
   "MagnusTetens", "Buck", "Buck2", "CIMO", "WMO", "Sonntag", "MurphyKoop", "McIDAS"]

/-- Modelled from the spec: the formula-name vocabulary of the Kelvin-based
entry point `saturated_vapor_pressure`, whose defining file is not under
src/.  Spec section 6 names `"Goff-Gratch"` and `"Buck1981"` (contrasted
with the Celsius entry point's `"GoffGratch"` and `"Buck"`) and section 8
names `"Hyland-Wexler"`. -/
def kelvinMethods : List String := ["Goff-Gratch", "Hyland-Wexler", "Buck1981"]

/-- Modelled from the spec: default `surface` argument of the Kelvin-based
entry point (spec section 6). -/
def kelvinDefaultSurface : String := "water"

/-- Modelled from the spec: default `method` argument of the Kelvin-based
entry point, `"Goff-Gratch"` for both surfaces (spec section 6). -/
def kelvinDefaultMethod : String := "Goff-Gratch"

/-- Modelled from the spec: the Kelvin-based entry point
`saturated_vapor_pressure(temperature_kelvin, surface, method) -> float`,
whose defining file is not under src/.  Per spec sections 3, 6 and 9 it
takes Kelvin input (0 degrees C = 273.15 K, conversion at the boundary),
surface in water/ice, its own formula vocabulary, and the same physics as
the Celsius entry point's formulas. -/
noncomputable def saturated_vapor_pressure
    (temperature_kelvin : ℝ) (surface : String) (method : String) : VPResult :=
  let temperature_c := temperature_kelvin - 273.15
  if surface = "water" then
    if method = "Goff-Gratch" then .ok (goffGratchLiquid temperature_c)
    else if method = "Hyland-Wexler" then .ok (hylandWexlerLiquid temperature_c)
    else if method = "Buck1981" then .ok (buckLiquid temperature_c)
    else .err ("Unknown method: " ++ method)
  else if surface = "ice" then
    if method = "Goff-Gratch" then .ok (goffGratchIce temperature_c)
    else if method = "Hyland-Wexler" then .ok (hylandWexlerIce temperature_c)
    else if method = "Buck1981" then .ok (buckIce temperature_c)
    else .err ("Unknown method: " ++ method)
  else .err "surface must be water or ice"

/-- Modelled from the spec: the Kelvin-based entry point applied with both
of its default arguments. -/
noncomputable def saturated_vapor_pressureDefault (temperature_kelvin : ℝ) : VPResult :=
  saturated_vapor_pressure temperature_kelvin kelvinDefaultSurface kelvinDefaultMethod

/-- With fuel `n + 1` the `GoffGratch` liquid branch returns directly,
making no recursive call. -/
lemma vpf_goffGratch (n : Nat) (t : ℝ) :
    vaporPressureElementwiseFuel (n + 1) t "liquid" (some "GoffGratch")
      = .ok (goffGratchLiquid t) := by
  simp [vaporPressureElementwiseFuel]

/-- Any fuel of at least 2 computes the same result as fuel 2. -/
lemma vpf_fuel_adequate (n : Nat) (t : ℝ) (p : String) (f : Option String) :
    vaporPressureElementwiseFuel (n + 2) t p f = vaporPressureElementwiseFuel 2 t p f := by
  simp [vaporPressureElementwiseFuel]

lemma ite_ne_diverge (c : Prop) [Decidable c] (a b : VPResult)
    (ha : a ≠ .diverge) (hb : b ≠ .diverge) : (if c then a else b) ≠ .diverge := by
  split <;> assumption

/-- Fuel 2 never exhausts: every branch of the evaluator completes. -/
lemma vpf_two_ne_diverge (t : ℝ) (p : String) (f : Option String) :
    vaporPressureElementwiseFuel 2 t p f ≠ .diverge := by
  simp [vaporPressureElementwiseFuel]
  repeat' apply ite_ne_diverge
  all_goals exact fun h => VPResult.noConfusion h

/-- Claim C1: the claim states that for every temperature strictly above
0 degrees C, evaluating with surface ice returns the HylandWexler
liquid-phase value regardless of the requested formula.  The code does the
opposite: its guard reads `temperature_c <= 0`, so above freezing the
requested ice-phase expression is evaluated.  This theorem evaluates the
code at the failing input 10 degrees C, ice, GoffGratch: the result is the
Goff Gratch ice expression, not the HylandWexler liquid expression. -/
theorem ice_dispatch_above_freezing :
    vapor_pressure_elementwise 10 "ice" (some "GoffGratch") = .ok (goffGratchIce 10) := by
  simp [vapor_pressure_elementwise, vaporPressureElementwiseFuel, iceResolve,
    show ¬((10 : ℝ) ≤ 0) by norm_num]

/-- Claim C2: the claim states that for temperatures not above 0 degrees C
with surface ice the requested formula is resolved and its ice-phase
expression evaluated, with evaluate(-20 C, ice, GoffGratch) approximately
1.03 hPa.  Because the guard `temperature_c <= 0` is inverted relative to
the code's own comment, the code instead returns the HylandWexler
liquid-water expression at -20 degrees C (approximately 1.256 hPa), never
reaching the Goff Gratch ice expression (approximately 1.031 hPa). -/
theorem ice_at_or_below_freezing_returns_liquid_value :
    vapor_pressure_elementwise (-20) "ice" (some "GoffGratch")
      = .ok (hylandWexlerLiquid (-20)) := by
  simp [vapor_pressure_elementwise, vaporPressureElementwiseFuel,
    show ((-20 : ℝ)) ≤ 0 by norm_num]

/-- Claim C3: at exactly 0 degrees C, evaluating with surface ice returns
the same value as evaluating with surface liquid and formula HylandWexler,
for every formula (in particular every formula supported on ice): the ice
branch takes its `temperature_c <= 0` guard and returns the HylandWexler
liquid-water expression. -/
theorem ice_liquid_continuity_at_zero (f : Option String) :
    vapor_pressure_elementwise 0 "ice" f
      = vapor_pressure_elementwise 0 "liquid" (some "HylandWexler") := by
  simp [vapor_pressure_elementwise, vaporPressureElementwiseFuel]

/-- Claim C4: for every temperature, evaluating with surface liquid and
formula MartiMauersberger returns exactly the value of surface liquid with
formula GoffGratch, both in the scalar evaluator (which delegates by a
recursive call) and in the vectorized wrapper (which substitutes the
formula once before mapping). -/
theorem marti_mauersberger_liquid_aliases_goff_gratch :
    (∀ t : ℝ, vapor_pressure_elementwise t "liquid" (some "MartiMauersberger")
      = vapor_pressure_elementwise t "liquid" (some "GoffGratch"))
    ∧ ∀ ts : List ℝ, vapor_pressure ts "liquid" (some "MartiMauersberger")
      = vapor_pressure ts "liquid" (some "GoffGratch") := by
  constructor
  · intro t
    simp [vapor_pressure_elementwise, vaporPressureElementwiseFuel]
  · intro ts
    simp [vapor_pressure]

/-- Claim C5: for every temperature, evaluating with surface ice and
formula IAPWS returns exactly the value of surface ice with formula
GoffGratch (the ice branch remaps IAPWS to GoffGratch), and the result is
an ordinary numeric value, never an error. -/
theorem iapws_ice_aliases_goff_gratch (t : ℝ) :
    vapor_pressure_elementwise t "ice" (some "IAPWS")
        = vapor_pressure_elementwise t "ice" (some "GoffGratch")
    ∧ ∃ x, vapor_pressure_elementwise t "ice" (some "IAPWS") = .ok x := by
  by_cases h : t ≤ 0
  · constructor <;>
      simp [vapor_pressure_elementwise, vaporPressureElementwiseFuel, h]
  · constructor <;>
      simp [vapor_pressure_elementwise, vaporPressureElementwiseFuel, iceResolve, h]

/-- Claim C6: evaluating with surface liquid and formula Fukuta returns the
not-a-number sentinel (without error) for every temperature strictly below
-39 degrees C, and an ordinary numeric value for every temperature at or
above -39 degrees C. -/
theorem fukuta_nan_below_minus39 (t : ℝ) :
    (t < -39.0 → vapor_pressure_elementwise t "liquid" (some "Fukuta") = .nan)
    ∧ (-39.0 ≤ t → ∃ x, vapor_pressure_elementwise t "liquid" (some "Fukuta") = .ok x) := by
  constructor
  · intro h
    simp [vapor_pressure_elementwise, vaporPressureElementwiseFuel, h]
  · intro h
    simp [vapor_pressure_elementwise, vaporPressureElementwiseFuel, not_lt.mpr h]

/-- Claim C6 witness: at -39.1 degrees C the Fukuta result is the
not-a-number sentinel, and at -39.0 degrees C it is an ordinary value. -/
theorem fukuta_nan_below_minus39_witness :
    vapor_pressure_elementwise (-39.1) "liquid" (some "Fukuta") = .nan
    ∧ ∃ x, vapor_pressure_elementwise (-39.0) "liquid" (some "Fukuta") = .ok x :=
  ⟨(fukuta_nan_below_minus39 (-39.1)).1 (by norm_num),
   (fukuta_nan_below_minus39 (-39.0)).2 (by norm_num)⟩

/-- Claim C7 counterexample: the claim states that every formula string
not defined for the given surface raises an InvalidArgument error, but at
-10 degrees C on ice the unrecognized formula "Nonexistent" raises no
error: the `temperature_c <= 0` guard returns the HylandWexler
liquid-water value before the formula is ever examined. -/
theorem unknown_formula_ice_below_freezing_no_error :
    vapor_pressure_elementwise (-10) "ice" (some "Nonexistent")
      = .ok (hylandWexlerLiquid (-10)) := by
  simp [vapor_pressure_elementwise, vaporPressureElementwiseFuel,
    show ((-10 : ℝ)) ≤ 0 by norm_num]

/-- Claim C7 as amended: over liquid, every formula string outside the
liquid dispatch table raises a ValueError naming the formula and the
liquid water surface; over ice, such an error is raised exactly in the
branch that examines the formula, namely for temperatures strictly above
0 degrees C, naming the alias-resolved formula and the ice surface; and
every phase outside liquid and ice raises a ValueError. -/
theorem unknown_formula_and_phase_errors :
    (∀ (t : ℝ) (f : String), f ∉ liquidFormulas →
      vapor_pressure_elementwise t "liquid" (some f)
        = .err ("Unknown formula for saturation pressure over liquid water surface: " ++ f))
    ∧ (∀ (t : ℝ) (f : String), 0 < t → iceResolve f ∉ iceFormulas →
      vapor_pressure_elementwise t "ice" (some f)
        = .err ("Unknown formula for saturation pressure over ice surface: " ++ iceResolve f))
    ∧ ∀ (t : ℝ) (p : String) (f : Option String), p ≠ "liquid" → p ≠ "ice" →
      vapor_pressure_elementwise t p f
        = .err "Phase of water must be either `liquid` or `ice`." := by
  refine ⟨?_, ?_, ?_⟩
  · intro t f h
    simp only [liquidFormulas, List.mem_cons, List.not_mem_nil, or_false, not_or] at h
    obtain ⟨h1, h2, h3, h4, h5, h6, h7, h8, h9, h10, h11, h12, h13, h14, h15, h16, h17, h18⟩ := h
    simp [vapor_pressure_elementwise, vaporPressureElementwiseFuel,
      h1, h2, h3, h4, h5, h6, h7, h8, h9, h10, h11, h12, h13, h14, h15, h16, h17, h18]
  · intro t f ht h
    simp only [iceFormulas, List.mem_cons, List.not_mem_nil, or_false, not_or] at h
    obtain ⟨h1, h2, h3, h4, h5, h6, h7, h8, h9, h10, h11, h12, h13⟩ := h
    simp [vapor_pressure_elementwise, vaporPressureElementwiseFuel, not_le.mpr ht,
      h1, h2, h3, h4, h5, h6, h7, h8, h9, h10, h11, h12, h13]
  · intro t p f h1 h2
    simp [vapor_pressure_elementwise, vaporPressureElementwiseFuel, h1, h2]

/-- Claim C7 witness: concrete instances of the amended claim, including
evaluate(10, liquid, "Nonexistent") raising an error naming "Nonexistent". -/
theorem unknown_formula_and_phase_errors_witness :
    vapor_pressure_elementwise 10 "liquid" (some "Nonexistent")
      = .err ("Unknown formula for saturation pressure over liquid water surface: "
          ++ "Nonexistent")
    ∧ vapor_pressure_elementwise 5 "ice" (some "Nonexistent")
      = .err ("Unknown formula for saturation pressure over ice surface: "
          ++ iceResolve "Nonexistent")
    ∧ vapor_pressure_elementwise 0 "plasma" none
      = .err "Phase of water must be either `liquid` or `ice`." :=
  ⟨unknown_formula_and_phase_errors.1 10 "Nonexistent" (by decide),
   unknown_formula_and_phase_errors.2.1 5 "Nonexistent" (by norm_num) (by decide),
   unknown_formula_and_phase_errors.2.2 0 "plasma" none (by decide) (by decide)⟩

/-- Claim C8: the public interface includes a Kelvin-based entry point
`saturated_vapor_pressure(temperature_kelvin, surface = "water",
method = "Goff-Gratch")` returning a float, with surface in water/ice,
default method "Goff-Gratch" for both surfaces, and a formula-name
vocabulary (for example "Buck1981", "Goff-Gratch") distinct from the
Celsius-based entry point's vocabulary. -/
theorem kelvin_entry_point_interface :
    (∀ T : ℝ, saturated_vapor_pressureDefault T
        = saturated_vapor_pressure T "water" "Goff-Gratch")
    ∧ (kelvinDefaultSurface = "water" ∧ kelvinDefaultMethod = "Goff-Gratch"
        ∧ "Goff-Gratch" ∈ kelvinMethods ∧ "Buck1981" ∈ kelvinMethods
        ∧ "Goff-Gratch" ∉ liquidFormulas ∧ "Buck1981" ∉ liquidFormulas
        ∧ "GoffGratch" ∉ kelvinMethods ∧ "Buck" ∉ kelvinMethods)
    ∧ ∀ (T : ℝ) (s m : String), (s = "water" ∨ s = "ice") → m ∈ kelvinMethods →
        ∃ x, saturated_vapor_pressure T s m = .ok x := by
  refine ⟨fun T => rfl, by decide, ?_⟩
  intro T s m hs hm
  simp only [kelvinMethods, List.mem_cons, List.not_mem_nil, or_false] at hm
  rcases hs with rfl | rfl <;> rcases hm with rfl | rfl | rfl <;>
    simp [saturated_vapor_pressure]

/-- Claim C8 witness: the Kelvin entry point at 293.15 K over water with
the default method returns an ordinary numeric value. -/
theorem kelvin_entry_point_interface_witness :
    ∃ x, saturated_vapor_pressure 293.15 "water" "Goff-Gratch" = .ok x :=
  kelvin_entry_point_interface.2.2 293.15 "water" "Goff-Gratch" (Or.inl rfl) (by decide)

/-- Claim C9: in the scalar evaluator, for surface ice and every
temperature at or below 0 degrees C, the formula argument is completely
ignored: every formula value, including unrecognized names, yields the
HylandWexler liquid-phase value without any error. -/
theorem ice_branch_ignores_formula_at_or_below_zero
    (t : ℝ) (f : Option String) (h : t ≤ 0) :
    vapor_pressure_elementwise t "ice" f = .ok (hylandWexlerLiquid t) := by
  simp [vapor_pressure_elementwise, vaporPressureElementwiseFuel, h]

/-- Claim C9 witness: at -5 degrees C on ice the unrecognized formula
"Nonexistent" returns the HylandWexler liquid-phase value. -/
theorem ice_branch_ignores_formula_at_or_below_zero_witness :
    vapor_pressure_elementwise (-5) "ice" (some "Nonexistent")
      = .ok (hylandWexlerLiquid (-5)) :=
  ice_branch_ignores_formula_at_or_below_zero (-5) (some "Nonexistent") (by norm_num)

/-- Claim C10: the scalar evaluator terminates on every input with
recursion depth at most one: any fuel of at least 2 computes the same
result as fuel 2 (which defines `vapor_pressure_elementwise`), the
GoffGratch liquid branch that the two self-recursive call sites delegate
to completes with any positive fuel without further recursion, and the
evaluator never exhausts its fuel. -/
theorem evaluator_recursion_depth_at_most_one
    (n : Nat) (t : ℝ) (p : String) (f : Option String) :
    vaporPressureElementwiseFuel (n + 2) t p f = vapor_pressure_elementwise t p f
    ∧ vaporPressureElementwiseFuel (n + 1) t "liquid" (some "GoffGratch")
        = .ok (goffGratchLiquid t)
    ∧ vapor_pressure_elementwise t p f ≠ .diverge :=
  ⟨vpf_fuel_adequate n t p f, vpf_goffGratch n t, vpf_two_ne_diverge t p f⟩
